import Mathlib

/-!
Verification of the Movie-based-Recommendation-System repository (src/app.py).

The development shallowly embeds the two core subsystems of the program:

* the content-similarity model (`prepare_model`, app.py lines 31-34, and the
  ranking query at lines 508-509), with sklearn's `TfidfVectorizer`
  (raw term counts, smooth idf `log((1+n)/(1+df)) + 1`, L2 row
  normalisation) and `linear_kernel` modelled over the exact reals; and
* the media-resolution cascade (`fetch_poster`, the trailer fetchers,
  `get_best_trailer`, `get_movie_media` with its `st.cache_data(ttl=3600)`
  memoisation), with each external provider modelled as a response
  environment and the HTTP try/except blocks as `Except`-valued outcomes.

Floating-point arithmetic of the source is modelled as exact real
arithmetic; everything discrete is kept computable.
-/

namespace MovieRec

/-! ## Content similarity model (app.py `prepare_model`, lines 31-34)

`prepare_model` runs `TfidfVectorizer(stop_words='english')` over the
space-joined genre strings and returns
`linear_kernel(tfidf_matrix, tfidf_matrix)`.  We model each movie's genre
descriptor as its list of tokens (the result of tokenizing the
space-separated genre string; genre tags contain no English stop words, so
the stop-word filter is the identity on them). -/

/-- One catalog row: the movie id and the tokenized genre descriptor. -/
structure CatalogItem where
  movieId : ℕ
  genres : List String

/-- Genre documents of a catalog, in table order. -/
def docsOf (catalog : List CatalogItem) : List (List String) :=
  catalog.map CatalogItem.genres

/-- Term frequency: raw count of token `t` in one document
(`TfidfVectorizer` default `sublinear_tf=False`). -/
def tfCount (doc : List String) (t : String) : ℕ :=
  doc.count t

/-- Document frequency of token `t` over the corpus. -/
def docFreq (docs : List (List String)) (t : String) : ℕ :=
  (docs.filter (fun d => d.contains t)).length

/-- The fitted vocabulary: every token occurring in the corpus, once.
sklearn stores the vocabulary alphabetically sorted; the model's outputs
below sum over the vocabulary, so they do not depend on its order. -/
def vocab (docs : List (List String)) : List String :=
  docs.flatten.dedup

/-- Smoothed inverse document frequency, sklearn's default
`smooth_idf=True`: `ln((1 + n) / (1 + df(t))) + 1`. -/
noncomputable def idf (docs : List (List String)) (t : String) : ℝ :=
  Real.log ((1 + docs.length) / (1 + docFreq docs t)) + 1

/-- Unnormalised tf-idf weight of token `t` in document `i`. -/
noncomputable def tfidfWeight (docs : List (List String)) (i : ℕ) (t : String) : ℝ :=
  (tfCount (docs.getD i []) t : ℝ) * idf docs t

/-- Dot product of the unnormalised tf-idf rows `i` and `j`. -/
noncomputable def rowDot (docs : List (List String)) (i j : ℕ) : ℝ :=
  ((vocab docs).map (fun t => tfidfWeight docs i t * tfidfWeight docs j t)).sum

/-- Euclidean norm of tf-idf row `i`. -/
noncomputable def rowNorm (docs : List (List String)) (i : ℕ) : ℝ :=
  Real.sqrt (rowDot docs i i)

/-- Entry `(i, j)` of `prepare_model`'s matrix: `TfidfVectorizer` L2
normalises each row (a zero row stays zero, matching Lean's `x / 0 = 0`)
and `linear_kernel` takes pairwise dot products of the normalised rows. -/
noncomputable def cosineSim (docs : List (List String)) (i j : ℕ) : ℝ :=
  ((vocab docs).map (fun t =>
    tfidfWeight docs i t / rowNorm docs i * (tfidfWeight docs j t / rowNorm docs j))).sum

/-- The list `list(enumerate(cosine_sim[idx]))` from app.py line 509. -/
noncomputable def simScores (docs : List (List String)) (idx : ℕ) : List (ℕ × ℝ) :=
  (List.range docs.length).map (fun i => (i, cosineSim docs idx i))

/-- Python's `sorted(..., key=lambda x: x[1], reverse=True)` is a stable
descending sort; on pairs with pairwise-distinct first components (which
`enumerate` yields) it coincides with sorting by this total order:
higher score first, ties by ascending index. -/
def sortKey : ℕ × ℝ → ℕ × ℝ → Prop := fun a b =>
  b.2 < a.2 ∨ (a.2 = b.2 ∧ a.1 ≤ b.1)

noncomputable instance : DecidableRel sortKey :=
  fun _ _ => Classical.propDecidable _

instance : IsTotal (ℕ × ℝ) sortKey where
  total a b := by
    rcases lt_trichotomy a.2 b.2 with h | h | h
    · exact Or.inr (Or.inl h)
    · rcases Nat.le_total a.1 b.1 with h1 | h1
      · exact Or.inl (Or.inr ⟨h, h1⟩)
      · exact Or.inr (Or.inr ⟨h.symm, h1⟩)
    · exact Or.inl (Or.inl h)

instance : IsTrans (ℕ × ℝ) sortKey where
  trans a b c hab hbc := by
    rcases hab with h1 | ⟨h1, h1n⟩ <;> rcases hbc with h2 | ⟨h2, h2n⟩
    · exact Or.inl (h2.trans h1)
    · exact Or.inl (h2 ▸ h1)
    · exact Or.inl (by rw [h1]; exact h2)
    · exact Or.inr ⟨h1.trans h2, h1n.trans h2n⟩

/-- The sorted score list of app.py line 509 (before slicing). -/
noncomputable def sortedSimScores (docs : List (List String)) (idx : ℕ) : List (ℕ × ℝ) :=
  (simScores docs idx).insertionSort sortKey

/-- The recommendation query of app.py line 509: sort all rows by
similarity to row `idx` (descending, stable) and keep the row indices in
slice `[1 : n+1]`. -/
noncomputable def topSimilar (docs : List (List String)) (idx n : ℕ) : List ℕ :=
  (((sortedSimScores docs idx).drop 1).take n).map Prod.fst

/-- The same query reported as movie ids (the rendered cards are
`movies.iloc[i]` for each kept row index `i`). -/
noncomputable def topSimilarMovies (catalog : List CatalogItem) (idx n : ℕ) : List ℕ :=
  (topSimilar (docsOf catalog) idx n).map (fun i => (catalog.getD i ⟨0, []⟩).movieId)

/-! ### Basic lemmas about the similarity matrix -/

lemma rowDot_self_nonneg (docs : List (List String)) (i : ℕ) :
    0 ≤ rowDot docs i i := by
  apply List.sum_nonneg
  intro x hx
  rcases List.mem_map.mp hx with ⟨t, _, rfl⟩
  exact mul_self_nonneg _

lemma cosineSim_eq_div (docs : List (List String)) (i j : ℕ) :
    cosineSim docs i j = rowDot docs i j / (rowNorm docs i * rowNorm docs j) := by
  unfold cosineSim rowDot
  have h : (fun t => tfidfWeight docs i t / rowNorm docs i *
      (tfidfWeight docs j t / rowNorm docs j)) =
      (fun t => tfidfWeight docs i t * tfidfWeight docs j t *
        (rowNorm docs i * rowNorm docs j)⁻¹) := by
    funext t
    rw [div_mul_div_comm, div_eq_mul_inv]
  rw [h, List.sum_map_mul_right, ← div_eq_mul_inv]

lemma rowDot_comm (docs : List (List String)) (i j : ℕ) :
    rowDot docs i j = rowDot docs j i := by
  unfold rowDot
  have h : (fun t => tfidfWeight docs i t * tfidfWeight docs j t) =
      (fun t => tfidfWeight docs j t * tfidfWeight docs i t) := by
    funext t; ring
  rw [h]

lemma idf_pos (docs : List (List String)) (t : String) : 0 < idf docs t := by
  unfold idf
  have hdf : (docFreq docs t : ℝ) ≤ (docs.length : ℝ) := by
    exact_mod_cast List.length_filter_le _ _
  have h1 : (0:ℝ) < 1 + docFreq docs t := by positivity
  have hx : (1:ℝ) ≤ (1 + docs.length) / (1 + docFreq docs t) := by
    rw [le_div_iff₀ h1]
    linarith
  have := Real.log_nonneg hx
  linarith

lemma cosineSim_self (docs : List (List String)) (i : ℕ)
    (h : rowDot docs i i ≠ 0) : cosineSim docs i i = 1 := by
  rw [cosineSim_eq_div]
  rw [show rowNorm docs i * rowNorm docs i = rowDot docs i i from
    Real.mul_self_sqrt (rowDot_self_nonneg docs i)]
  exact div_self h

lemma rowDot_self_ne_zero (docs : List (List String)) (i : ℕ) (t : String)
    (ht : t ∈ vocab docs) (hc : tfCount (docs.getD i []) t ≠ 0) :
    rowDot docs i i ≠ 0 := by
  have hterm : 0 < tfidfWeight docs i t * tfidfWeight docs i t := by
    have hw : 0 < tfidfWeight docs i t := by
      unfold tfidfWeight
      have h1 : 0 < (tfCount (docs.getD i []) t : ℝ) := by
        exact_mod_cast Nat.pos_of_ne_zero hc
      exact mul_pos h1 (idf_pos docs t)
    exact mul_pos hw hw
  have hmem : tfidfWeight docs i t * tfidfWeight docs i t ∈
      ((vocab docs).map (fun s => tfidfWeight docs i s * tfidfWeight docs i s)) :=
    List.mem_map_of_mem _ ht
  have hle := List.single_le_sum (l := (vocab docs).map
      (fun s => tfidfWeight docs i s * tfidfWeight docs i s))
    (fun x hx => by
      rcases List.mem_map.mp hx with ⟨s, _, rfl⟩
      exact mul_self_nonneg _) _ hmem
  have : 0 < rowDot docs i i := lt_of_lt_of_le hterm hle
  exact ne_of_gt this

/-! ### The three-movie scenario catalog of the spec -/

/-- The scenario catalog: 1 Toy Story [Animation, Comedy],
2 A Bugs Life [Animation, Comedy], 3 Heat [Action, Crime]. -/
def catalog3 : List CatalogItem :=
  [⟨1, ["animation", "comedy"]⟩, ⟨2, ["animation", "comedy"]⟩, ⟨3, ["action", "crime"]⟩]

/-- Genre documents of the scenario catalog. -/
def docs3 : List (List String) := docsOf catalog3

lemma vocab_docs3 : vocab docs3 = ["animation", "comedy", "action", "crime"] := by decide

lemma docs3_row1 : tfidfWeight docs3 1 = tfidfWeight docs3 0 := by
  funext t; rfl

lemma rowDot3_01 : rowDot docs3 0 1 = rowDot docs3 0 0 := by
  unfold rowDot; rw [docs3_row1]

lemma rowDot3_11 : rowDot docs3 1 1 = rowDot docs3 0 0 := by
  unfold rowDot; rw [docs3_row1]

lemma rowNorm3_1 : rowNorm docs3 1 = rowNorm docs3 0 := by
  unfold rowNorm; rw [rowDot3_11]

lemma rowDot3_00_ne : rowDot docs3 0 0 ≠ 0 :=
  rowDot_self_ne_zero docs3 0 "animation" (by rw [vocab_docs3]; simp) (by decide)

lemma rowDot3_02 : rowDot docs3 0 2 = 0 := by
  unfold rowDot
  rw [vocab_docs3]
  have wa : tfidfWeight docs3 0 "action" = 0 := by
    unfold tfidfWeight
    rw [(by decide : tfCount (docs3.getD 0 []) "action" = 0)]
    simp
  have wc : tfidfWeight docs3 0 "crime" = 0 := by
    unfold tfidfWeight
    rw [(by decide : tfCount (docs3.getD 0 []) "crime" = 0)]
    simp
  have wan : tfidfWeight docs3 2 "animation" = 0 := by
    unfold tfidfWeight
    rw [(by decide : tfCount (docs3.getD 2 []) "animation" = 0)]
    simp
  have wco : tfidfWeight docs3 2 "comedy" = 0 := by
    unfold tfidfWeight
    rw [(by decide : tfCount (docs3.getD 2 []) "comedy" = 0)]
    simp
  simp [wa, wc, wan, wco]

lemma sim3_00 : cosineSim docs3 0 0 = 1 := cosineSim_self docs3 0 rowDot3_00_ne

lemma sim3_01 : cosineSim docs3 0 1 = 1 := by
  rw [cosineSim_eq_div, rowDot3_01, rowNorm3_1]
  rw [show rowNorm docs3 0 * rowNorm docs3 0 = rowDot docs3 0 0 from
    Real.mul_self_sqrt (rowDot_self_nonneg docs3 0)]
  exact div_self rowDot3_00_ne

lemma sim3_02 : cosineSim docs3 0 2 = 0 := by
  rw [cosineSim_eq_div, rowDot3_02, zero_div]

lemma sim3_1j (j : ℕ) : cosineSim docs3 1 j = cosineSim docs3 0 j := by
  unfold cosineSim rowNorm rowDot
  rw [docs3_row1]

lemma simScores3_0 : simScores docs3 0 = [(0, (1:ℝ)), (1, 1), (2, 0)] := by
  unfold simScores
  rw [show docs3.length = 3 from rfl, show List.range 3 = [0, 1, 2] from by decide]
  simp [sim3_00, sim3_01, sim3_02]

lemma simScores3_1 : simScores docs3 1 = [(0, (1:ℝ)), (1, 1), (2, 0)] := by
  unfold simScores
  rw [show docs3.length = 3 from rfl, show List.range 3 = [0, 1, 2] from by decide]
  simp [sim3_1j, sim3_00, sim3_01, sim3_02]

lemma sortedSimScores3_0 : sortedSimScores docs3 0 = [(0, (1:ℝ)), (1, 1), (2, 0)] := by
  unfold sortedSimScores
  rw [simScores3_0]
  norm_num [List.insertionSort, List.orderedInsert, sortKey]

lemma sortedSimScores3_1 : sortedSimScores docs3 1 = [(0, (1:ℝ)), (1, 1), (2, 0)] := by
  unfold sortedSimScores
  rw [simScores3_1]
  norm_num [List.insertionSort, List.orderedInsert, sortKey]

lemma topSimilar3_0 : topSimilar docs3 0 1 = [1] := by
  unfold topSimilar
  rw [sortedSimScores3_0]
  rfl

lemma topSimilar3_1 : topSimilar docs3 1 1 = [1] := by
  unfold topSimilar
  rw [sortedSimScores3_1]
  rfl

/-! ### General facts about the ranking query -/

lemma simScores_map_fst (docs : List (List String)) (idx : ℕ) :
    (simScores docs idx).map Prod.fst = List.range docs.length := by
  unfold simScores
  rw [List.map_map]
  have hcomp : (Prod.fst ∘ fun i => (i, cosineSim docs idx i)) = id := by
    funext i; rfl
  rw [hcomp, List.map_id]

lemma mem_simScores (docs : List (List String)) (idx : ℕ) {p : ℕ × ℝ}
    (hp : p ∈ simScores docs idx) :
    p.2 = cosineSim docs idx p.1 ∧ p.1 < docs.length := by
  unfold simScores at hp
  rcases List.mem_map.mp hp with ⟨i, hi, rfl⟩
  exact ⟨rfl, List.mem_range.mp hi⟩

/-- A two-element corpus whose second document is empty: its tf-idf row is
the zero vector (sklearn leaves an all-zero row unnormalised, and
`linear_kernel` then puts 0, not 1, on that diagonal entry). -/
def docs2 : List (List String) := [["animation", "comedy"], []]

/-! ## Claim theorems for the similarity engine -/

/-- C1 (amended): for every seed row present in the catalog and every
n ≥ 1, `top_similar(seed, n)` has length at most n; and it never contains
the seed itself PROVIDED the seed pair sorts strictly first, i.e. every
earlier row has strictly smaller similarity to the seed than the seed's
self-similarity and no later row exceeds the self-similarity.  (The
unconditional exclusion stated by the spec fails on similarity ties; see
the counterexample.) -/
theorem topSimilar_bounded_and_excludes_seed (docs : List (List String)) (seed n : ℕ)
    (hseed : seed < docs.length) (_hn : 1 ≤ n) :
    (topSimilar docs seed n).length ≤ n ∧
    ((∀ j, j < seed → cosineSim docs seed j < cosineSim docs seed seed) →
     (∀ j, seed < j → j < docs.length → cosineSim docs seed j ≤ cosineSim docs seed seed) →
     seed ∉ topSimilar docs seed n) := by
  constructor
  · unfold topSimilar
    rw [List.length_map]
    exact List.length_take_le _ _
  · intro hlo hhi hmem
    have hperm : (sortedSimScores docs seed).Perm (simScores docs seed) :=
      List.perm_insertionSort sortKey _
    have hsorted : (sortedSimScores docs seed).Sorted sortKey :=
      List.sorted_insertionSort sortKey _
    have hlen : 0 < (sortedSimScores docs seed).length := by
      rw [hperm.length_eq]
      unfold simScores
      rw [List.length_map, List.length_range]
      omega
    obtain ⟨h, t, hL⟩ :=
      List.exists_cons_of_ne_nil (List.ne_nil_of_length_pos hlen)
    have hseedmem : (seed, cosineSim docs seed seed) ∈ sortedSimScores docs seed := by
      apply hperm.mem_iff.mpr
      unfold simScores
      exact List.mem_map_of_mem _ (List.mem_range.mpr hseed)
    have hheadfst : h.1 = seed := by
      by_contra hne
      have hhmem : h ∈ simScores docs seed :=
        hperm.subset (hL ▸ List.mem_cons_self h t)
      obtain ⟨hh2, hhlt⟩ := mem_simScores docs seed hhmem
      have hpt : (seed, cosineSim docs seed seed) ∈ t := by
        rw [hL] at hseedmem
        rcases List.mem_cons.mp hseedmem with heq | ht2
        · exact absurd (congrArg Prod.fst heq).symm hne
        · exact ht2
      have hkey : sortKey h (seed, cosineSim docs seed seed) := by
        rw [hL] at hsorted
        exact (List.sorted_cons.mp hsorted).1 _ hpt
      simp only [sortKey] at hkey
      rcases Nat.lt_or_ge h.1 seed with hlt | hge
      · have hs := hlo h.1 hlt
        rw [hh2] at hkey
        rcases hkey with hk | ⟨hk, _⟩
        · exact absurd hk (by linarith)
        · exact absurd hk (by linarith)
      · have hgt : seed < h.1 := lt_of_le_of_ne hge (Ne.symm hne)
        have hs := hhi h.1 hgt hhlt
        rw [hh2] at hkey
        rcases hkey with hk | ⟨_, hk⟩
        · exact absurd hk (by linarith)
        · omega
    have hnodup : ((sortedSimScores docs seed).map Prod.fst).Nodup := by
      have hp2 : ((sortedSimScores docs seed).map Prod.fst).Perm
          ((simScores docs seed).map Prod.fst) := hperm.map _
      rw [hp2.nodup_iff, simScores_map_fst]
      exact List.nodup_range _
    have hseednott : seed ∉ t.map Prod.fst := by
      rw [hL] at hnodup
      simp only [List.map_cons] at hnodup
      have := (List.nodup_cons.mp hnodup).1
      rwa [hheadfst] at this
    unfold topSimilar at hmem
    rw [hL] at hmem
    simp only [List.drop_succ_cons, List.drop_zero] at hmem
    rcases List.mem_map.mp hmem with ⟨p, hp, hpf⟩
    exact hseednott (hpf ▸ List.mem_map_of_mem Prod.fst (List.take_subset _ _ hp))

/-- C1 witness: the amended theorem applied to the scenario catalog with
seed row 0 and n = 1, all hypotheses discharged concretely. -/
theorem topSimilar_bounded_and_excludes_seed_witness :
    ((0:ℕ) < docs3.length ∧ (1:ℕ) ≤ 1) ∧
    ((topSimilar docs3 0 1).length ≤ 1 ∧ (0:ℕ) ∉ topSimilar docs3 0 1) := by
  have hseed : (0:ℕ) < docs3.length := by decide
  have key := topSimilar_bounded_and_excludes_seed docs3 0 1 hseed (le_refl 1)
  refine ⟨⟨hseed, le_refl 1⟩, key.1, key.2 ?_ ?_⟩
  · intro j hj
    exact absurd hj (Nat.not_lt_zero j)
  · intro j hj1 hj2
    have hj3 : j < 3 := by
      rw [(rfl : docs3.length = 3)] at hj2
      exact hj2
    interval_cases j
    · rw [sim3_01, sim3_00]
    · rw [sim3_02, sim3_00]
      norm_num

/-- C1 counterexample: in the scenario catalog the seed item with id 2
(row 1) ties with row 0 at similarity 1; Python's stable descending sort
keeps row 0 first, so the slice `[1:n+1]` keeps the seed itself:
`top_similar(2, 1)` returns `[2]`, which contains the seed. -/
theorem topSimilar_counterexample_contains_seed :
    topSimilarMovies catalog3 1 1 = [2] ∧ (catalog3.getD 1 ⟨0, []⟩).movieId = 2 := by
  constructor
  · unfold topSimilarMovies
    rw [show topSimilar (docsOf catalog3) 1 1 = [1] from topSimilar3_1]
    rfl
  · rfl

/-- C2 (amended): every item whose tf-idf vector is nonzero has content
self-similarity exactly 1.  (Zero-vector items have self-similarity 0, so
the unconditional "diagonal is all ones" fails; see the counterexample.) -/
theorem cosineSim_diagonal_one (docs : List (List String)) (i : ℕ)
    (h : rowDot docs i i ≠ 0) : cosineSim docs i i = 1 :=
  cosineSim_self docs i h

/-- C2 witness: the amended diagonal theorem applied to document 0 of the
two-document corpus, the nonzero-row hypothesis discharged concretely. -/
theorem cosineSim_diagonal_one_witness :
    rowDot docs2 0 0 ≠ 0 ∧ cosineSim docs2 0 0 = 1 := by
  have hne : rowDot docs2 0 0 ≠ 0 :=
    rowDot_self_ne_zero docs2 0 "animation" (by decide) (by decide)
  exact ⟨hne, cosineSim_diagonal_one docs2 0 hne⟩

/-- C2 counterexample: the second document of `docs2` is empty, its
tf-idf row is the zero vector, and the `linear_kernel` diagonal entry for
it is 0, not 1 — the code never overwrites the diagonal. -/
theorem cosineSim_diagonal_counterexample : cosineSim docs2 1 1 ≠ 1 := by
  have hz : cosineSim docs2 1 1 = 0 := by
    rw [cosineSim_eq_div]
    have hd : rowDot docs2 1 1 = 0 := by
      unfold rowDot
      have hw : ∀ t, tfidfWeight docs2 1 t = 0 := by
        intro t
        unfold tfidfWeight
        have hc : tfCount (docs2.getD 1 []) t = 0 := rfl
        rw [hc]
        simp
      simp [hw]
    rw [hd, zero_div]
  rw [hz]
  norm_num

/-- C7: for the three-item scenario catalog (ids 1, 2, 3), the query
top_similar on the item with id 1 (row 0) with n = 1 returns exactly the
one-element movie-id list [2]. -/
theorem scenario_topSimilar_toy_story :
    topSimilarMovies catalog3 0 1 = [2] ∧ (catalog3.getD 0 ⟨0, []⟩).movieId = 1 := by
  constructor
  · unfold topSimilarMovies
    rw [show topSimilar (docsOf catalog3) 0 1 = [1] from topSimilar3_0]
    rfl
  · rfl

/-- C8: the content similarity matrix produced by `prepare_model` is
symmetric: entry (i, j) equals entry (j, i) for every pair of rows of any
fixed catalog snapshot. -/
theorem cosineSim_symm (docs : List (List String)) (i j : ℕ) :
    cosineSim docs i j = cosineSim docs j i := by
  rw [cosineSim_eq_div, cosineSim_eq_div, rowDot_comm, mul_comm]

/-! ## String helpers used by the media cascade

app.py computes `clean_title = re.sub(r'\(\d{4}\)', '', title).strip()` and
builds the final placeholder with Python `str.replace`.  The helpers below
implement those operations on character lists, fuel-structured so that
they reduce inside the kernel. -/

/-- Match `pat` against the start of a list and return the remainder. -/
def dropMatch : List Char → List Char → Option (List Char)
  | [], l => some l
  | _ :: _, [] => none
  | p :: ps, c :: cs => if p == c then dropMatch ps cs else none

/-- Replace every non-overlapping occurrence of `pat` (nonempty) by `rep`,
scanning left to right, as Python `str.replace` does. -/
def replaceGo (pat rep : List Char) : ℕ → List Char → List Char
  | _, [] => []
  | 0, l => l
  | fuel + 1, c :: rest =>
    match pat, dropMatch pat (c :: rest) with
    | _ :: _, some remainder => rep ++ replaceGo pat rep fuel remainder
    | _, _ => c :: replaceGo pat rep fuel rest

/-- Python `s.replace(pat, rep)` for a nonempty pattern. -/
def pyReplace (s pat rep : String) : String :=
  String.mk (replaceGo pat.data rep.data s.data.length s.data)

/-- Recognise `(dddd)` at the start of a list, returning what follows. -/
def yearTagEnd : List Char → Option (List Char)
  | d1 :: d2 :: d3 :: d4 :: e :: rest =>
    if d1.isDigit && d2.isDigit && d3.isDigit && d4.isDigit && e == ')' then some rest
    else none
  | _ => none

/-- Delete every occurrence of the regex `\(\d{4}\)`, scanning left to
right (Python `re.sub(r'\(\d{4}\)', '', title)`). -/
def stripYearGo : ℕ → List Char → List Char
  | _, [] => []
  | 0, l => l
  | fuel + 1, c :: rest =>
    if c == '(' then
      match yearTagEnd rest with
      | some rest2 => stripYearGo fuel rest2
      | none => c :: stripYearGo fuel rest
    else c :: stripYearGo fuel rest

/-- Python `str.strip()`: drop whitespace at both ends. -/
def trimChars (l : List Char) : List Char :=
  ((l.dropWhile Char.isWhitespace).reverse.dropWhile Char.isWhitespace).reverse

/-- app.py line 58: `re.sub(r'\(\d{4}\)', '', title).strip()`. -/
def cleanTitle (s : String) : String :=
  String.mk (trimChars (stripYearGo s.data.length s.data))

/-! ## Media resolution cascade (app.py lines 57-234)

Each external provider is modelled by the response its endpoint would give
to this resolution's request.  `Except.error ()` stands for any outcome
the source's `try/except` treats as an exception: a `requests` timeout, a
non-2xx status surfaced by `raise_for_status`, a JSON decoding error, or a
malformed payload whose field access raises.  All remaining falsy-payload
cases (`[]` result lists, empty strings, absent fields) are represented as
ordinary values. -/

/-- One entry of a TMDB `/videos` response (only the fields the source
reads: `site`, `type` and `key`). -/
structure Video where
  site : String
  vtype : String
  key : String

/-- Provider responses for one media resolution.  `tmdbMovie` and
`tmdbVideos` are keyed by the movie id found by the preceding search
call. -/
structure MediaEnv where
  tmdbKey : Bool
  omdbKey : Bool
  youtubeKey : Bool
  tmdbSearch : Except Unit (List ℕ)
  tmdbMovie : ℕ → Except Unit String
  omdb : Except Unit (Option String)
  itunesArt : Except Unit (ℕ × List String)
  tmdbTrailerSearch : Except Unit (List ℕ)
  tmdbVideos : ℕ → Except Unit (List Video)
  youtube : Except Unit (List String)
  itunesPreviews : Except Unit (ℕ × List (Option String))

/-- Ghost instrumentation: how many times each cascade stage was
attempted during one resolution. -/
structure Calls where
  posterTmdb : ℕ := 0
  posterOmdb : ℕ := 0
  posterItunes : ℕ := 0
  trailerTmdb : ℕ := 0
  trailerYoutube : ℕ := 0
  trailerItunes : ℕ := 0
deriving DecidableEq

/-- Componentwise sum of two call counts. -/
def Calls.add (a b : Calls) : Calls :=
  ⟨a.posterTmdb + b.posterTmdb, a.posterOmdb + b.posterOmdb,
   a.posterItunes + b.posterItunes, a.trailerTmdb + b.trailerTmdb,
   a.trailerYoutube + b.trailerYoutube, a.trailerItunes + b.trailerItunes⟩

/-- TMDB poster stage of `fetch_poster` (lines 60-85): skipped without an
API key; searches, takes the first result's id, fetches the movie detail,
and returns the w500 URL when `poster_path` is truthy.  An exception, an
empty result list, or a falsy `poster_path` falls through (`none`). -/
def tmdbPoster (env : MediaEnv) : Option String :=
  if env.tmdbKey then
    match env.tmdbSearch with
    | Except.ok (movieId :: _) =>
      match env.tmdbMovie movieId with
      | Except.ok posterPath =>
        if posterPath = "" then none
        else some ("https://image.tmdb.org/t/p/w500" ++ posterPath)
      | Except.error _ => none
    | _ => none
  else none

/-- OMDB stage (lines 87-99): skipped without an API key; usable when the
`Poster` field is present and not the literal `"N/A"`. -/
def omdbPoster (env : MediaEnv) : Option String :=
  if env.omdbKey then
    match env.omdb with
    | Except.ok (some p) => if p = "N/A" then none else some p
    | _ => none
  else none

/-- iTunes poster stage (lines 101-118): no key needed; usable when
`resultCount > 0`, a first result exists (indexing an empty `results`
raises, which the `except` catches), and its artwork URL is truthy; the
source upgrades `100x100bb` to `600x600bb` in the returned URL. -/
def itunesPoster (env : MediaEnv) : Option String :=
  match env.itunesArt with
  | Except.ok (cnt, artworks) =>
    if 0 < cnt then
      match artworks with
      | [] => none
      | a :: _ => if a = "" then none else some (pyReplace a "100x100bb" "600x600bb")
    else none
  | Except.error _ => none

/-- The final placeholder (lines 120-122): embeds the cleaned title and,
when present, the year, with spaces turned into `+`. -/
def placeholderUrl (title : String) (year : Option String) : String :=
  let c := cleanTitle title
  let txt := match year with
    | some y => c ++ "+" ++ y
    | none => c
  "https://via.placeholder.com/300x450/6e48aa/ffffff.png?text=" ++ pyReplace txt " " "+"

/-- Whether the TMDB poster block is entered (guarded by the key). -/
def tmdbAttempt (env : MediaEnv) : ℕ := if env.tmdbKey then 1 else 0

/-- Whether the OMDB block is entered (guarded by the key). -/
def omdbAttempt (env : MediaEnv) : ℕ := if env.omdbKey then 1 else 0

/-- `fetch_poster` (lines 57-122) with ghost stage-attempt counts: each
stage runs only if every earlier stage fell through. -/
def fetchPosterC (env : MediaEnv) (title : String) (year : Option String) :
    String × Calls :=
  match tmdbPoster env with
  | some u => (u, { posterTmdb := tmdbAttempt env })
  | none =>
    match omdbPoster env with
    | some u => (u, { posterTmdb := tmdbAttempt env, posterOmdb := omdbAttempt env })
    | none =>
      match itunesPoster env with
      | some u =>
        (u, { posterTmdb := tmdbAttempt env, posterOmdb := omdbAttempt env,
              posterItunes := 1 })
      | none =>
        (placeholderUrl title year,
         { posterTmdb := tmdbAttempt env, posterOmdb := omdbAttempt env,
           posterItunes := 1 })

/-- The poster URL `fetch_poster` returns. -/
def fetchPoster (env : MediaEnv) (title : String) (year : Option String) : String :=
  (fetchPosterC env title year).1

/-- The trailer dictionary the source builds (`url`, `source`,
`button_color`). -/
structure Trailer where
  url : String
  source : String
  buttonColor : String
deriving DecidableEq

/-- `fetch_tmdb_trailer` (lines 124-160): key-guarded; search, then the
first YouTube video of type Trailer from the `/videos` payload; every
exception or miss yields `None`. -/
def fetchTmdbTrailer (env : MediaEnv) : Option Trailer :=
  if env.tmdbKey then
    match env.tmdbTrailerSearch with
    | Except.ok (movieId :: _) =>
      match env.tmdbVideos movieId with
      | Except.ok videos =>
        match videos.find? (fun v => v.site == "YouTube" && v.vtype == "Trailer") with
        | some v => some ⟨"https://youtu.be/" ++ v.key, "youtube", "#FF0000"⟩
        | none => none
      | Except.error _ => none
    | _ => none
  else none

/-- The body of `fetch_youtube_trailer` (lines 163-183): early `None`
without a key, otherwise one search request whose first item's video id is
returned; the `try/except` returns `None` on any exception. -/
def fetchYoutubeTrailerBody (env : MediaEnv) : Option String :=
  if env.youtubeKey then
    match env.youtube with
    | Except.ok (v :: _) => some ("https://youtu.be/" ++ v)
    | _ => none
  else none

/-- HTTP requests one invocation of the body performs (one search call
when a key is configured, none otherwise). -/
def youtubeBodyRequests (env : MediaEnv) : ℕ := if env.youtubeKey then 1 else 0

/-- The tenacity decorator of line 162,
`retry(stop=stop_after_attempt(2), wait=wait_exponential(multiplier=1, min=2, max=10))`:
invoke the wrapped callable; only when the call raises, sleep (2s doubling
to a 10s cap — timing is not modelled) and invoke it one final time.
Returns the outcome together with the number of attempts made; with a
deterministic environment both attempts behave identically. -/
def retryStopAfter2 {α : Type} (f : Except Unit α) : Except Unit α × ℕ :=
  match f with
  | Except.ok a => (Except.ok a, 1)
  | Except.error e => (Except.error e, 2)

/-- `fetch_youtube_trailer` viewed as a Python callable that could raise:
its body wraps everything in `try/except`, so it always returns. -/
def fetchYoutubeTrailerE (env : MediaEnv) : Except Unit (Option String) :=
  Except.ok (fetchYoutubeTrailerBody env)

/-- The decorated `fetch_youtube_trailer`, with the attempts counted. -/
def fetchYoutubeTrailerRetry (env : MediaEnv) : Except Unit (Option String) × ℕ :=
  retryStopAfter2 (fetchYoutubeTrailerE env)

/-- Total HTTP requests one call of the decorated function performs. -/
def youtubeRequests (env : MediaEnv) : ℕ :=
  (fetchYoutubeTrailerRetry env).2 * youtubeBodyRequests env

/-- `fetch_itunes_trailer` (lines 185-204): usable when `resultCount > 0`
and a first result exists; returns its (possibly absent) `previewUrl`. -/
def fetchItunesTrailer (env : MediaEnv) : Option String :=
  match env.itunesPreviews with
  | Except.ok (cnt, previews) =>
    if 0 < cnt then
      match previews with
      | [] => none
      | p :: _ => p
    else none
  | Except.error _ => none

/-- `get_best_trailer` (lines 206-227) with ghost stage counts.  The
result is `Except`-valued because a raising `fetch_youtube_trailer` call
would propagate out of this function (it has no `try`). -/
def getBestTrailerC (env : MediaEnv) : Except Unit (Option Trailer) × Calls :=
  match fetchTmdbTrailer env with
  | some tr => (Except.ok (some tr), { trailerTmdb := 1 })
  | none =>
    match fetchYoutubeTrailerRetry env with
    | (Except.ok (some url), att) =>
      (Except.ok (some ⟨url, "youtube", "#FF0000"⟩),
       { trailerTmdb := 1, trailerYoutube := att })
    | (Except.ok none, att) =>
      match fetchItunesTrailer env with
      | some url =>
        (Except.ok (some ⟨url, "itunes", "#000000"⟩),
         { trailerTmdb := 1, trailerYoutube := att, trailerItunes := 1 })
      | none =>
        (Except.ok none,
         { trailerTmdb := 1, trailerYoutube := att, trailerItunes := 1 })
    | (Except.error e, att) =>
      (Except.error e, { trailerTmdb := 1, trailerYoutube := att })

/-- The cache key: `get_movie_media` is keyed on its argument, of which
the cascade reads the title and the year. -/
structure MovieKey where
  title : String
  year : Option String
deriving DecidableEq

/-- The Media Record: `{'poster': ..., 'trailer': ...}`. -/
structure Media where
  poster : String
  trailer : Option Trailer
deriving DecidableEq

/-- The body of `get_movie_media` (lines 230-234), uncached: build the
poster (evaluated first) and the best trailer.  A raising trailer lookup
would abort the dictionary construction. -/
def getMovieMediaC (env : MediaEnv) (m : MovieKey) : Except Unit Media × Calls :=
  match fetchPosterC env m.title m.year, getBestTrailerC env with
  | (poster, pcalls), (Except.ok tr, tcalls) =>
    (Except.ok ⟨poster, tr⟩, pcalls.add tcalls)
  | (_, pcalls), (Except.error e, tcalls) => (Except.error e, pcalls.add tcalls)

/-- One memo entry of the `st.cache_data` store. -/
structure CacheEntry where
  key : MovieKey
  storedAt : ℕ
  value : Media
deriving DecidableEq

/-- The `@st.cache_data(ttl=3600)` wrapper of line 229, per its documented
semantics: a hit on an unexpired entry (stored less than 3600 seconds ago)
returns the memoised record with no provider calls; otherwise the body
runs, and a successful result is stored at the current time.  An exception
is not cached and propagates. -/
def getMovieMediaCached (env : MediaEnv) (cache : List CacheEntry) (now : ℕ)
    (m : MovieKey) : Except Unit Media × List CacheEntry × Calls :=
  match cache.find? (fun e => decide (e.key = m) && decide (now < e.storedAt + 3600)) with
  | some e => (Except.ok e.value, cache, ({} : Calls))
  | none =>
    match getMovieMediaC env m with
    | (Except.ok v, c) => (Except.ok v, ⟨m, now, v⟩ :: cache, c)
    | (Except.error er, c) => (Except.error er, cache, c)

/-! ### Cascade lemmas -/

lemma tmdbPoster_fail (env : MediaEnv) (h : env.tmdbSearch = Except.error ()) :
    tmdbPoster env = none := by
  unfold tmdbPoster
  rw [h]
  cases env.tmdbKey <;> rfl

lemma omdbPoster_fail (env : MediaEnv) (h : env.omdb = Except.error ()) :
    omdbPoster env = none := by
  unfold omdbPoster
  rw [h]
  cases env.omdbKey <;> rfl

lemma itunesPoster_fail (env : MediaEnv) (h : env.itunesArt = Except.error ()) :
    itunesPoster env = none := by
  unfold itunesPoster
  rw [h]

lemma fetchTmdbTrailer_fail (env : MediaEnv)
    (h : env.tmdbTrailerSearch = Except.error ()) : fetchTmdbTrailer env = none := by
  unfold fetchTmdbTrailer
  rw [h]
  cases env.tmdbKey <;> rfl

lemma fetchYoutubeTrailerBody_fail (env : MediaEnv)
    (h : env.youtube = Except.error ()) : fetchYoutubeTrailerBody env = none := by
  unfold fetchYoutubeTrailerBody
  rw [h]
  cases env.youtubeKey <;> rfl

lemma fetchItunesTrailer_fail (env : MediaEnv)
    (h : env.itunesPreviews = Except.error ()) : fetchItunesTrailer env = none := by
  unfold fetchItunesTrailer
  rw [h]

lemma fetchPosterC_all_fail (env : MediaEnv) (title : String) (year : Option String)
    (h1 : env.tmdbSearch = Except.error ()) (h2 : env.omdb = Except.error ())
    (h3 : env.itunesArt = Except.error ()) :
    fetchPosterC env title year =
      (placeholderUrl title year,
       { posterTmdb := tmdbAttempt env, posterOmdb := omdbAttempt env,
         posterItunes := 1 }) := by
  unfold fetchPosterC
  rw [tmdbPoster_fail env h1, omdbPoster_fail env h2, itunesPoster_fail env h3]

lemma getBestTrailerC_all_fail (env : MediaEnv)
    (h1 : env.tmdbTrailerSearch = Except.error ())
    (h2 : env.youtube = Except.error ())
    (h3 : env.itunesPreviews = Except.error ()) :
    getBestTrailerC env =
      (Except.ok none,
       { trailerTmdb := 1, trailerYoutube := 1, trailerItunes := 1 }) := by
  have ht : fetchTmdbTrailer env = none := fetchTmdbTrailer_fail env h1
  have hy : fetchYoutubeTrailerBody env = none := fetchYoutubeTrailerBody_fail env h2
  have hi : fetchItunesTrailer env = none := fetchItunesTrailer_fail env h3
  unfold getBestTrailerC fetchYoutubeTrailerRetry retryStopAfter2 fetchYoutubeTrailerE
  rw [ht, hy, hi]

/-- Every media provider of the environment responds with a failure the
source treats as an exception. -/
def AllProvidersFail (env : MediaEnv) : Prop :=
  env.tmdbSearch = Except.error () ∧ (∀ i, env.tmdbMovie i = Except.error ()) ∧
  env.omdb = Except.error () ∧ env.itunesArt = Except.error () ∧
  env.tmdbTrailerSearch = Except.error () ∧ (∀ i, env.tmdbVideos i = Except.error ()) ∧
  env.youtube = Except.error () ∧ env.itunesPreviews = Except.error ()

/-- A concrete environment in which every provider fails. -/
def envAllFail : MediaEnv where
  tmdbKey := true
  omdbKey := true
  youtubeKey := true
  tmdbSearch := Except.error ()
  tmdbMovie := fun _ => Except.error ()
  omdb := Except.error ()
  itunesArt := Except.error ()
  tmdbTrailerSearch := Except.error ()
  tmdbVideos := fun _ => Except.error ()
  youtube := Except.error ()
  itunesPreviews := Except.error ()

/-! ## Claim theorems for the media cascade -/

/-- C3: when every media provider fails, `get_movie_media` still returns a
Media Record without raising: the poster is the deterministic placeholder
URL embedding the cleaned title and the year, and the trailer is
unavailable. -/
theorem resolveMedia_allFail_placeholder (m : MovieKey) (env : MediaEnv)
    (hfail : AllProvidersFail env) :
    (getMovieMediaC env m).1 =
      Except.ok ⟨placeholderUrl m.title m.year, none⟩ := by
  obtain ⟨h1, _h2, h3, h4, h5, _h6, h7, h8⟩ := hfail
  unfold getMovieMediaC
  rw [fetchPosterC_all_fail env m.title m.year h1 h3 h4,
      getBestTrailerC_all_fail env h5 h7 h8]

/-- C3 witness: the all-providers-fail theorem applied to ("Heat", 1995)
and the concrete failing environment, with the placeholder URL computed. -/
theorem resolveMedia_allFail_witness :
    AllProvidersFail envAllFail ∧
    (getMovieMediaC envAllFail ⟨"Heat", some "1995"⟩).1 =
      Except.ok ⟨"https://via.placeholder.com/300x450/6e48aa/ffffff.png?text=Heat+1995",
        none⟩ := by
  have hfail : AllProvidersFail envAllFail :=
    ⟨rfl, fun _ => rfl, rfl, rfl, rfl, fun _ => rfl, rfl, rfl⟩
  refine ⟨hfail, ?_⟩
  rw [resolveMedia_allFail_placeholder ⟨"Heat", some "1995"⟩ envAllFail hfail]
  rfl

/-- C4: `fetch_poster` evaluates TMDB, OMDB and iTunes strictly in that
order and returns the first usable URL, falling back to the placeholder:
the resolved poster is exactly the ordered-orElse of the three stages, so
an earlier success is never overridden or merged with a later result. -/
theorem fetchPoster_first_usable (env : MediaEnv) (title : String) (year : Option String) :
    fetchPoster env title year =
      (Option.orElse (Option.orElse (tmdbPoster env) (fun _ => omdbPoster env))
        (fun _ => itunesPoster env)).getD (placeholderUrl title year) := by
  unfold fetchPoster fetchPosterC
  cases h1 : tmdbPoster env with
  | some u => rfl
  | none =>
    cases h2 : omdbPoster env with
    | some u => rfl
    | none =>
      cases h3 : itunesPoster env with
      | some u => rfl
      | none => rfl

lemma fetchPosterC_calls_bound (env : MediaEnv) (title : String) (year : Option String) :
    ((fetchPosterC env title year).2.posterTmdb ≤ 1 ∧
     (fetchPosterC env title year).2.posterOmdb ≤ 1 ∧
     (fetchPosterC env title year).2.posterItunes ≤ 1) ∧
    ((fetchPosterC env title year).2.trailerTmdb = 0 ∧
     (fetchPosterC env title year).2.trailerYoutube = 0 ∧
     (fetchPosterC env title year).2.trailerItunes = 0) := by
  have hta : tmdbAttempt env ≤ 1 := by unfold tmdbAttempt; split <;> omega
  have hoa : omdbAttempt env ≤ 1 := by unfold omdbAttempt; split <;> omega
  unfold fetchPosterC
  cases h1 : tmdbPoster env with
  | some u => exact ⟨⟨hta, Nat.zero_le _, Nat.zero_le _⟩, rfl, rfl, rfl⟩
  | none =>
    cases h2 : omdbPoster env with
    | some u => exact ⟨⟨hta, hoa, Nat.zero_le _⟩, rfl, rfl, rfl⟩
    | none =>
      cases h3 : itunesPoster env with
      | some u => exact ⟨⟨hta, hoa, le_refl 1⟩, rfl, rfl, rfl⟩
      | none => exact ⟨⟨hta, hoa, le_refl 1⟩, rfl, rfl, rfl⟩

lemma getBestTrailerC_calls_bound (env : MediaEnv) :
    ((getBestTrailerC env).2.trailerTmdb ≤ 1 ∧
     (getBestTrailerC env).2.trailerYoutube ≤ 2 ∧
     (getBestTrailerC env).2.trailerItunes ≤ 1) ∧
    ((getBestTrailerC env).2.posterTmdb = 0 ∧
     (getBestTrailerC env).2.posterOmdb = 0 ∧
     (getBestTrailerC env).2.posterItunes = 0) := by
  unfold getBestTrailerC fetchYoutubeTrailerRetry retryStopAfter2 fetchYoutubeTrailerE
  cases h1 : fetchTmdbTrailer env with
  | some tr => exact ⟨⟨le_refl 1, Nat.zero_le _, Nat.zero_le _⟩, rfl, rfl, rfl⟩
  | none =>
    cases h2 : fetchYoutubeTrailerBody env with
    | some url => exact ⟨⟨le_refl 1, (by omega : (1:ℕ) ≤ 2), Nat.zero_le _⟩, rfl, rfl, rfl⟩
    | none =>
      cases h3 : fetchItunesTrailer env with
      | some url => exact ⟨⟨le_refl 1, (by omega : (1:ℕ) ≤ 2), le_refl 1⟩, rfl, rfl, rfl⟩
      | none => exact ⟨⟨le_refl 1, (by omega : (1:ℕ) ≤ 2), le_refl 1⟩, rfl, rfl, rfl⟩

lemma getMovieMediaC_calls (env : MediaEnv) (m : MovieKey) :
    (getMovieMediaC env m).2 =
      (fetchPosterC env m.title m.year).2.add (getBestTrailerC env).2 := by
  unfold getMovieMediaC
  rcases fetchPosterC env m.title m.year with ⟨poster, pcalls⟩
  rcases h : getBestTrailerC env with ⟨r, tcalls⟩
  cases r <;> rfl

/-- C6: per single media resolution, the youtube trailer stage (the only
one wrapped by the bounded-retry decorator, capped at two attempts) is
attempted at most twice, and every other provider stage of the cascade is
attempted at most once. -/
theorem cascade_attempt_bounds (env : MediaEnv) (m : MovieKey) :
    (getMovieMediaC env m).2.trailerYoutube ≤ 2 ∧
    ((getMovieMediaC env m).2.posterTmdb ≤ 1 ∧
     (getMovieMediaC env m).2.posterOmdb ≤ 1 ∧
     (getMovieMediaC env m).2.posterItunes ≤ 1) ∧
    ((getMovieMediaC env m).2.trailerTmdb ≤ 1 ∧
     (getMovieMediaC env m).2.trailerItunes ≤ 1) := by
  obtain ⟨⟨p1, p2, p3⟩, pt1, pt2, pt3⟩ := fetchPosterC_calls_bound env m.title m.year
  obtain ⟨⟨t1, t2, t3⟩, tp1, tp2, tp3⟩ := getBestTrailerC_calls_bound env
  rw [getMovieMediaC_calls]
  unfold Calls.add
  dsimp only
  omega

/-- C10: the body of `fetch_youtube_trailer` catches every exception and
returns `None`, so the retry decorator never observes a failure: the
decorated call equals the undecorated body after exactly one attempt, and
it performs at most one HTTP request. -/
theorem youtubeRetry_single_attempt (env : MediaEnv) :
    fetchYoutubeTrailerRetry env = (Except.ok (fetchYoutubeTrailerBody env), 1) ∧
    youtubeRequests env ≤ 1 := by
  refine ⟨rfl, ?_⟩
  unfold youtubeRequests youtubeBodyRequests
  have h : (fetchYoutubeTrailerRetry env).2 = 1 := rfl
  rw [h, one_mul]
  split <;> omega

/-- C9: within one TTL window (3600 seconds) a second resolution of the
same key is served from the cache with zero provider calls and the
identical Media Record; once the TTL has expired, the next request runs
the full cascade again (same result and same provider-call counts as the
uncached body). -/
theorem mediaCache_ttl_idempotent (env : MediaEnv) (m : MovieKey) (t0 t1 t2 : ℕ)
    (v : Media) (ch : List CacheEntry) (c : Calls)
    (hfirst : getMovieMediaCached env [] t0 m = (Except.ok v, ch, c))
    (h1 : t1 < t0 + 3600) (h2 : t0 + 3600 ≤ t2) :
    getMovieMediaCached env ch t1 m = (Except.ok v, ch, ({} : Calls)) ∧
    (getMovieMediaCached env ch t2 m).1 = (getMovieMediaC env m).1 ∧
    (getMovieMediaCached env ch t2 m).2.2 = (getMovieMediaC env m).2 := by
  unfold getMovieMediaCached at hfirst
  rw [List.find?_nil] at hfirst
  rcases hg : getMovieMediaC env m with ⟨r, cc⟩
  rw [hg] at hfirst
  cases r with
  | error e => simp at hfirst
  | ok w =>
    simp only [Prod.mk.injEq, Except.ok.injEq] at hfirst
    obtain ⟨hw, hch, hcc⟩ := hfirst
    subst hw
    have hnot : ¬ (t2 < t0 + 3600) := by omega
    refine ⟨?_, ?_, ?_⟩
    · rw [← hch]
      unfold getMovieMediaCached
      simp [List.find?, h1]
    · rw [← hch]
      unfold getMovieMediaCached
      simp [List.find?, hnot, hg]
    · rw [← hch]
      unfold getMovieMediaCached
      simp [List.find?, hnot, hg]

/-- The scenario cache key ("Heat", 1995). -/
def heatKey : MovieKey := ⟨"Heat", some "1995"⟩

/-- The Media Record the all-fail environment resolves for `heatKey`. -/
def heatMedia : Media :=
  ⟨"https://via.placeholder.com/300x450/6e48aa/ffffff.png?text=Heat+1995", none⟩

/-- Stage-attempt counts of a full cascade run in the all-fail
environment. -/
def callsAllStages : Calls := ⟨1, 1, 1, 1, 1, 1⟩

/-- C9 witness: the TTL theorem applied to the concrete failing
environment, the key ("Heat", 1995), a first resolution at time 0, a hit
at time 10 and an expired request at time 3600. -/
theorem mediaCache_ttl_witness :
    (getMovieMediaCached envAllFail [] 0 heatKey =
      (Except.ok heatMedia, [⟨heatKey, 0, heatMedia⟩], callsAllStages) ∧
     (10:ℕ) < 0 + 3600 ∧ 0 + 3600 ≤ (3600:ℕ)) ∧
    (getMovieMediaCached envAllFail [⟨heatKey, 0, heatMedia⟩] 10 heatKey =
      (Except.ok heatMedia, [⟨heatKey, 0, heatMedia⟩], ({} : Calls)) ∧
     (getMovieMediaCached envAllFail [⟨heatKey, 0, heatMedia⟩] 3600 heatKey).1 =
      (getMovieMediaC envAllFail heatKey).1 ∧
     (getMovieMediaCached envAllFail [⟨heatKey, 0, heatMedia⟩] 3600 heatKey).2.2 =
      (getMovieMediaC envAllFail heatKey).2) := by
  have hfirst : getMovieMediaCached envAllFail [] 0 heatKey =
      (Except.ok heatMedia, [⟨heatKey, 0, heatMedia⟩], callsAllStages) := rfl
  have key := mediaCache_ttl_idempotent envAllFail heatKey 0 10 3600 heatMedia
    [⟨heatKey, 0, heatMedia⟩] callsAllStages hfirst (by norm_num) (by norm_num)
  exact ⟨⟨hfirst, by norm_num, by norm_num⟩, key⟩

/-! ## Interaction similarity model (spec section 4.2)

The repository's only source file contains no interaction-based model;
the definitions below are modelled from the spec so that the cold-start
policy can be stated. -/

/-- Modelled from the spec: one interaction record
`{item_id, actor_id, weight}` (spec section 3); absent from src/app.py.
Float weights are modelled as exact rationals. -/
structure Interaction where
  item : ℕ
  actor : ℕ
  weight : ℚ

/-- Modelled from the spec: the items having at least one recorded
interaction — the rows of the Interaction Matrix. -/
def interactedItems (inter : List Interaction) : List ℕ :=
  (inter.map Interaction.item).dedup

/-- Modelled from the spec: the actors of the interaction table — the
columns of the Interaction Matrix. -/
def interactionActors (inter : List Interaction) : List ℕ :=
  (inter.map Interaction.actor).dedup

/-- Modelled from the spec: entry (item, actor) of the Interaction
Matrix; missing interactions are encoded as 0. -/
def interactionWeight (inter : List Interaction) (i a : ℕ) : ℚ :=
  ((inter.filter (fun r => decide (r.item = i) && decide (r.actor = a))).map
    Interaction.weight).sum

/-- Modelled from the spec: dot product of the interaction rows of two
items. -/
noncomputable def interRowDot (inter : List Interaction) (i j : ℕ) : ℝ :=
  ((interactionActors inter).map (fun a =>
    (interactionWeight inter i a : ℝ) * (interactionWeight inter j a : ℝ))).sum

/-- Modelled from the spec: cosine similarity over interaction rows (the
neighbor index metric of spec section 4.2). -/
noncomputable def interactionCosine (inter : List Interaction) (i j : ℕ) : ℝ :=
  interRowDot inter i j /
    (Real.sqrt (interRowDot inter i i) * Real.sqrt (interRowDot inter j j))

/-- Modelled from the spec (section 7): the error taxonomy entry for a
malformed request — a seed absent from the catalog. -/
inductive RecError where
  | notFound
deriving DecidableEq

/-- Modelled from the spec (section 4.2): `top_neighbors(item_id, n)` —
`NotFound` for a seed absent from the catalog (malformed request); the
defined empty result for an item with no recorded interactions (cold
start); otherwise the up-to-n other interacted items with nonzero
similarity, by descending cosine with ties by ascending item id. -/
noncomputable def topNeighbors (catalog : List ℕ) (inter : List Interaction)
    (item n : ℕ) : Except RecError (List ℕ) :=
  if item ∉ catalog then Except.error RecError.notFound
  else if item ∉ interactedItems inter then Except.ok []
  else
    let cands := ((interactedItems inter).filter (fun j => j != item)).map
      (fun j => (j, interactionCosine inter item j))
    Except.ok ((((cands.insertionSort sortKey).filter
      (fun p => decide (0 < p.2))).take n).map Prod.fst)

/-- C5: for every item that is in the catalog but absent from the
Interaction Matrix and every n, `top_neighbors` returns the empty list as
an ordinary (`ok`) outcome — distinguishable from a malformed request,
which yields the `NotFound` error value. -/
theorem topNeighbors_cold_start (catalog : List ℕ) (inter : List Interaction)
    (item n : ℕ) (hcat : item ∈ catalog) (hcold : item ∉ interactedItems inter) :
    topNeighbors catalog inter item n = Except.ok ([] : List ℕ) := by
  unfold topNeighbors
  rw [if_neg (not_not_intro hcat), if_pos hcold]

/-- The spec's cold-start scenario interactions:
(1, userA, 5.0) and (2, userA, 4.5); item 3 has none. -/
def interScenario : List Interaction := [⟨1, 100, 5⟩, ⟨2, 100, (9:ℚ)/2⟩]

/-- C5 witness: the cold-start theorem applied to the scenario — catalog
[1, 2, 3], item 3 with no interactions, n = 2. -/
theorem topNeighbors_cold_start_witness :
    ((3:ℕ) ∈ [1, 2, 3] ∧ (3:ℕ) ∉ interactedItems interScenario) ∧
    topNeighbors [1, 2, 3] interScenario 3 2 = Except.ok ([] : List ℕ) := by
  have h1 : (3:ℕ) ∈ [1, 2, 3] := by decide
  have h2 : (3:ℕ) ∉ interactedItems interScenario := by decide
  exact ⟨⟨h1, h2⟩, topNeighbors_cold_start [1, 2, 3] interScenario 3 2 h1 h2⟩

end MovieRec
